import Mathlib

/-!
Shallow embedding of the 6502 CPU core (src/cpu.rs, src/constants.rs,
src/bus.rs).  Machine integers are modelled as `Nat` with explicit
`% 256` / `% 65536` at the points where the source performs (or, under
release semantics, relies on) wrapping arithmetic; the 64 KiB bus RAM is
a function `Nat → Nat`.  A fallible step (a Rust `panic!`) is modelled
with `Option`.
-/

namespace Nes

/-- The processor status word (struct `Status` in src/constants.rs). -/
structure Status where
  carry : Bool
  zero : Bool
  interrupt : Bool
  decimal : Bool
  break_command : Bool
  unused : Bool
  overflow : Bool
  negative : Bool
deriving DecidableEq

/-- Source `Status::to_byte`: pack the eight flags, Carry at bit 0 through Negative at bit 7. -/
def Status.to_byte (p : Status) : Nat :=
  (p.carry.toNat <<< 0) ||| (p.zero.toNat <<< 1) ||| (p.interrupt.toNat <<< 2) |||
  (p.decimal.toNat <<< 3) ||| (p.break_command.toNat <<< 4) ||| (p.unused.toNat <<< 5) |||
  (p.overflow.toNat <<< 6) ||| (p.negative.toNat <<< 7)

/-- Source `Status::from_byte`: unpack a byte into the eight flags. -/
def Status.from_byte (input : Nat) : Status where
  carry := (input &&& 0b00000001) != 0
  zero := (input &&& 0b00000010) != 0
  interrupt := (input &&& 0b00000100) != 0
  decimal := (input &&& 0b00001000) != 0
  break_command := (input &&& 0b00010000) != 0
  unused := (input &&& 0b00100000) != 0
  overflow := (input &&& 0b01000000) != 0
  negative := (input &&& 0b10000000) != 0

/-- The thirteen addressing modes (enum `AddressingMode` in src/constants.rs). -/
inductive AddressingMode where
  | Implicit | Accumulator | Immediate
  | ZeroPage | ZeroPageX | ZeroPageY
  | Relative
  | Absolute | AbsoluteX | AbsoluteY
  | Indirect | IndirectX | IndirectY
deriving DecidableEq

/-- The CPU register file plus the bus RAM (struct `CPU` in src/cpu.rs;
the bus of src/bus.rs is inlined as the function `mem`). -/
structure CPU where
  mem : Nat → Nat
  status : Status
  a : Nat
  x : Nat
  y : Nat
  stack_pointer : Nat
  program_counter : Nat
  complete : Bool
  cycles : Nat

/-- Pointwise update of the RAM (`Bus::write`). -/
def writeMem (m : Nat → Nat) (addr data : Nat) : Nat → Nat :=
  fun i => if i = addr then data else m i

/-- Source `CPU::read` (via `Bus::read`). -/
def CPU.read (s : CPU) (addr : Nat) : Nat := s.mem addr

/-- Source `CPU::write` (via `Bus::write`). -/
def CPU.write (s : CPU) (addr data : Nat) : CPU :=
  { s with mem := writeMem s.mem addr data }

/-- Source `CPU::hilo_to_u16`: `(high as u16) << 8 | low as u16`. -/
def hilo_to_u16 (high low : Nat) : Nat :=
  (high <<< 8) ||| low

/-- Source `CPU::page_cross`: `(input1 & 0xFF00) != (input2 & 0xFF00)`. -/
def page_cross (input1 input2 : Nat) : Bool :=
  (input1 &&& 0xFF00) != (input2 &&& 0xFF00)

/-- Source `CPU::new` (bound to a bus whose RAM is `m`). -/
def CPU.new (m : Nat → Nat) : CPU where
  mem := m
  status := Status.from_byte 0b100100
  a := 0x00
  x := 0x00
  y := 0x00
  stack_pointer := 0xFD
  program_counter := 0x0000
  cycles := 0
  complete := false

/-- Sign extension of a byte read `as i8` and then widened `as u16`
(used by `CPU::branch` for the relative jump offset). -/
def signExtend8 (b : Nat) : Nat :=
  if b < 128 then b else b + 0xFF00

/-- Source `CPU::get_address`: resolve an addressing mode to
`(effective_address, crossed_page)`.  The source never mutates the CPU
here, so this is a pure function of the state. -/
def CPU.get_address (s : CPU) (addressing_mode : AddressingMode) : Nat × Bool :=
  match addressing_mode with
  | .Implicit => (0, false)
  | .Accumulator => (0, false)
  | .Immediate => (s.program_counter, false)
  | .ZeroPage => (s.read s.program_counter, false)
  | .ZeroPageX => ((s.read s.program_counter + s.x) % 256, false)
  | .ZeroPageY => ((s.read s.program_counter + s.y) % 256, false)
  | .Relative => (0, false)
  | .Absolute =>
      let low := s.read s.program_counter
      let high := s.read ((s.program_counter + 1) % 65536)
      (hilo_to_u16 high low, false)
  | .AbsoluteX =>
      let low := s.read s.program_counter
      let high := s.read ((s.program_counter + 1) % 65536)
      let address := (hilo_to_u16 high low + s.x) % 65536
      (address, page_cross address (high <<< 8))
  | .AbsoluteY =>
      let low := s.read s.program_counter
      let high := s.read ((s.program_counter + 1) % 65536)
      let address := (hilo_to_u16 high low + s.y) % 65536
      (address, page_cross address (high <<< 8))
  | .Indirect =>
      let pointer_low := s.read s.program_counter
      let pointer_high := s.read ((s.program_counter + 1) % 65536)
      let pointer := hilo_to_u16 pointer_high pointer_low
      let low := s.read pointer
      let high := s.read ((pointer + 1) % 65536)
      (hilo_to_u16 high low, false)
  | .IndirectX =>
      let pointer := (s.read s.program_counter + s.x) % 256
      let low := s.read pointer
      let high := s.read ((pointer + 1) % 256)
      (hilo_to_u16 high low, false)
  | .IndirectY =>
      let pointer := s.read s.program_counter
      let low := s.read pointer
      let high := s.read ((pointer + 1) % 65536)
      let address := (hilo_to_u16 high low + s.y) % 65536
      (address, page_cross address (high <<< 8))

/-- Source `CPU::get_data`: fetch the operand byte (or the accumulator for
Implicit/Accumulator modes) together with the crossed-page flag. -/
def CPU.get_data (s : CPU) (addressing_mode : AddressingMode) : Nat × Bool :=
  if addressing_mode ≠ AddressingMode.Implicit ∧ addressing_mode ≠ AddressingMode.Accumulator then
    let ap := s.get_address addressing_mode
    (s.read ap.1, ap.2)
  else
    (s.a, false)

/-- Source `CPU::update_zero_and_negative_flags`. -/
def CPU.update_zero_and_negative_flags (s : CPU) (register : Nat) : CPU :=
  { s with status := { s.status with zero := register == 0, negative := register >>> 7 != 0 } }

/-- Source `CPU::cycle_if`: charge one extra cycle when the mode matches and the condition holds. -/
def CPU.cycle_if (s : CPU) (addressing_mode needed_addressing_mode : AddressingMode)
    (condition : Bool) : CPU :=
  if needed_addressing_mode = addressing_mode ∧ condition = true then
    { s with cycles := s.cycles + 1 }
  else s

/-- Source `CPU::indexed_cycles`: page-cross penalty for AbsoluteX/AbsoluteY/IndirectY. -/
def CPU.indexed_cycles (s : CPU) (addressing_mode : AddressingMode)
    (page_boundary_crossed : Bool) : CPU :=
  let s := s.cycle_if addressing_mode AddressingMode.AbsoluteX page_boundary_crossed
  let s := s.cycle_if addressing_mode AddressingMode.AbsoluteY page_boundary_crossed
  s.cycle_if addressing_mode AddressingMode.IndirectY page_boundary_crossed

/-- Source `CPU::stack_push`: write at `0x0100 + SP`, then decrement SP mod 256. -/
def CPU.stack_push (s : CPU) (data : Nat) : CPU :=
  { s with mem := writeMem s.mem (0x0100 + s.stack_pointer) data,
           stack_pointer := (s.stack_pointer + 255) % 256 }

/-- Source `CPU::stack_pop`: increment SP mod 256, then read at `0x0100 + SP`;
returns the new state and the byte read. -/
def CPU.stack_pop (s : CPU) : CPU × Nat :=
  let sp := (s.stack_pointer + 1) % 256
  ({ s with stack_pointer := sp }, s.mem (0x0100 + sp))

/-- Source `CPU::branch`: on a taken branch, read the signed offset at PC, add one
cycle, relocate PC, and add two further cycles on a page cross between the
old PC (pointing at the offset byte) and the new PC. -/
def CPU.branch (s : CPU) (condition : Bool) : CPU :=
  if condition then
    let jump := s.read s.program_counter
    let s := { s with cycles := s.cycles + 1 }
    let old_pc := s.program_counter
    let new_pc := (s.program_counter + 1 + signExtend8 jump) % 65536
    let s := { s with program_counter := new_pc }
    { s with cycles := s.cycles + (page_cross old_pc new_pc).toNat * 2 }
  else s

/-- Source `CPU::LDA`. -/
def CPU.LDA (s : CPU) (m : AddressingMode) : CPU :=
  let vp := s.get_data m
  let s := { s with a := vp.1 }
  let s := s.indexed_cycles m vp.2
  s.update_zero_and_negative_flags s.a

/-- Source `CPU::LDX`. -/
def CPU.LDX (s : CPU) (m : AddressingMode) : CPU :=
  let vp := s.get_data m
  let s := { s with x := vp.1 }
  let s := s.cycle_if m AddressingMode.AbsoluteY vp.2
  s.update_zero_and_negative_flags s.x

/-- Source `CPU::LDY`. -/
def CPU.LDY (s : CPU) (m : AddressingMode) : CPU :=
  let vp := s.get_data m
  let s := { s with y := vp.1 }
  let s := s.cycle_if m AddressingMode.AbsoluteX vp.2
  s.update_zero_and_negative_flags s.y

/-- Source `CPU::STA`. -/
def CPU.STA (s : CPU) (m : AddressingMode) : CPU :=
  s.write (s.get_address m).1 s.a

/-- Source `CPU::STX`. -/
def CPU.STX (s : CPU) (m : AddressingMode) : CPU :=
  s.write (s.get_address m).1 s.x

/-- Source `CPU::STY`. -/
def CPU.STY (s : CPU) (m : AddressingMode) : CPU :=
  s.write (s.get_address m).1 s.y

/-- Source `CPU::TAX`. -/
def CPU.TAX (s : CPU) (_m : AddressingMode) : CPU :=
  let s := { s with x := s.a }
  s.update_zero_and_negative_flags s.x

/-- Source `CPU::TAY`. -/
def CPU.TAY (s : CPU) (_m : AddressingMode) : CPU :=
  let s := { s with y := s.a }
  s.update_zero_and_negative_flags s.y

/-- Source `CPU::TSX`. -/
def CPU.TSX (s : CPU) (_m : AddressingMode) : CPU :=
  let s := { s with x := s.stack_pointer }
  s.update_zero_and_negative_flags s.x

/-- Source `CPU::TXA`. -/
def CPU.TXA (s : CPU) (_m : AddressingMode) : CPU :=
  let s := { s with a := s.x }
  s.update_zero_and_negative_flags s.x

/-- Source `CPU::TXS` (no flag update). -/
def CPU.TXS (s : CPU) (_m : AddressingMode) : CPU :=
  { s with stack_pointer := s.x }

/-- Source `CPU::TYA`. -/
def CPU.TYA (s : CPU) (_m : AddressingMode) : CPU :=
  let s := { s with a := s.y }
  s.update_zero_and_negative_flags s.y

/-- Source `CPU::PHA`. -/
def CPU.PHA (s : CPU) (_m : AddressingMode) : CPU :=
  s.stack_push s.a

/-- Source `CPU::PHP`: push a copy of the status with Break and Unused forced to 1. -/
def CPU.PHP (s : CPU) (_m : AddressingMode) : CPU :=
  s.stack_push (Status.to_byte { s.status with break_command := true, unused := true })

/-- Source `CPU::PLA`. -/
def CPU.PLA (s : CPU) (_m : AddressingMode) : CPU :=
  let sv := s.stack_pop
  let s := { sv.1 with a := sv.2 }
  s.update_zero_and_negative_flags s.a

/-- Source `CPU::PLP`: pop into status, then force Break to 0 and Unused to 1. -/
def CPU.PLP (s : CPU) (_m : AddressingMode) : CPU :=
  let sv := s.stack_pop
  { sv.1 with status := { Status.from_byte sv.2 with break_command := false, unused := true } }

/-- Source `CPU::AND`. -/
def CPU.AND (s : CPU) (m : AddressingMode) : CPU :=
  let vp := s.get_data m
  let s := { s with a := s.a &&& vp.1 }
  let s := s.indexed_cycles m vp.2
  s.update_zero_and_negative_flags s.a

/-- Source `CPU::EOR`. -/
def CPU.EOR (s : CPU) (m : AddressingMode) : CPU :=
  let vp := s.get_data m
  let s := { s with a := s.a ^^^ vp.1 }
  let s := s.indexed_cycles m vp.2
  s.update_zero_and_negative_flags s.a

/-- Source `CPU::ORA`. -/
def CPU.ORA (s : CPU) (m : AddressingMode) : CPU :=
  let vp := s.get_data m
  let s := { s with a := s.a ||| vp.1 }
  let s := s.indexed_cycles m vp.2
  s.update_zero_and_negative_flags s.a

/-- Source `CPU::ADC`: `sum = A + M + C` on u16 (never wraps for byte inputs);
Carry from `sum > 0xFF`, Overflow from `(M^result)&(result^A)&0x80`. -/
def CPU.ADC (s : CPU) (m : AddressingMode) : CPU :=
  let vp := s.get_data m
  let addition := (s.a + vp.1 + s.status.carry.toNat) % 65536
  let result := addition % 256
  let s := { s with status := { s.status with
    carry := decide (addition > 0xFF),
    overflow := (vp.1 ^^^ result) &&& (result ^^^ s.a) &&& 0x80 != 0 } }
  let s := s.indexed_cycles m vp.2
  let s := { s with a := result }
  s.update_zero_and_negative_flags s.a

/-- Source `CPU::DEC`. -/
def CPU.DEC (s : CPU) (m : AddressingMode) : CPU :=
  let address := (s.get_address m).1
  let value := s.read address
  let result := (value + 255) % 256
  let s := s.write address result
  s.update_zero_and_negative_flags result

/-- Source `CPU::DEX`. -/
def CPU.DEX (s : CPU) (_m : AddressingMode) : CPU :=
  let s := { s with x := (s.x + 255) % 256 }
  s.update_zero_and_negative_flags s.x

/-- Source `CPU::DEY`. -/
def CPU.DEY (s : CPU) (_m : AddressingMode) : CPU :=
  let s := { s with y := (s.y + 255) % 256 }
  s.update_zero_and_negative_flags s.y

/-- Source `CPU::INC`. -/
def CPU.INC (s : CPU) (m : AddressingMode) : CPU :=
  let address := (s.get_address m).1
  let value := s.read address
  let result := (value + 1) % 256
  let s := s.write address result
  s.update_zero_and_negative_flags result

/-- Source `CPU::INX`. -/
def CPU.INX (s : CPU) (_m : AddressingMode) : CPU :=
  let s := { s with x := (s.x + 1) % 256 }
  s.update_zero_and_negative_flags s.x

/-- Source `CPU::INY`. -/
def CPU.INY (s : CPU) (_m : AddressingMode) : CPU :=
  let s := { s with y := (s.y + 1) % 256 }
  s.update_zero_and_negative_flags s.y

/-- Source `CPU::SBC`: the operand is replaced by its two's-complement negation
(`wrapping_neg`, which fixes 0 at 0), then
`sum = A + M' - !C` on u16 with wrapping subtraction. -/
def CPU.SBC (s : CPU) (m : AddressingMode) : CPU :=
  let vp := s.get_data m
  let value := (256 - vp.1) % 256
  let addition := ((s.a + value) % 65536 + 65536 - (1 - s.status.carry.toNat)) % 65536
  let result := addition % 256
  let s := { s with status := { s.status with
    carry := decide (addition > 0xFF),
    overflow := (value ^^^ result) &&& (result ^^^ s.a) &&& 0x80 != 0 } }
  let s := s.indexed_cycles m vp.2
  let s := { s with a := result }
  s.update_zero_and_negative_flags s.a

/-- Source `CPU::ASL`. -/
def CPU.ASL (s : CPU) (m : AddressingMode) : CPU :=
  if m = AddressingMode.Accumulator then
    let s := { s with status := { s.status with carry := s.a &&& 0x80 != 0 },
                      a := (s.a <<< 1) % 256 }
    s.update_zero_and_negative_flags s.a
  else
    let address := (s.get_address m).1
    let value := s.read address
    let s := { s with status := { s.status with carry := value &&& 0x80 != 0 } }
    let s := s.write address ((value <<< 1) % 256)
    s.update_zero_and_negative_flags ((value <<< 1) % 256)

/-- Source `CPU::LSR`. -/
def CPU.LSR (s : CPU) (m : AddressingMode) : CPU :=
  if m = AddressingMode.Accumulator then
    let s := { s with status := { s.status with carry := s.a &&& 0x01 != 0 },
                      a := s.a >>> 1 }
    s.update_zero_and_negative_flags s.a
  else
    let address := (s.get_address m).1
    let value := s.read address
    let s := { s with status := { s.status with carry := value &&& 0x01 != 0 } }
    let result := value >>> 1
    let s := s.write address result
    s.update_zero_and_negative_flags result

/-- Source `CPU::ROL`. -/
def CPU.ROL (s : CPU) (m : AddressingMode) : CPU :=
  if m = AddressingMode.Accumulator then
    let carry := s.status.carry.toNat
    let s := { s with status := { s.status with carry := s.a &&& 0x80 != 0 },
                      a := ((s.a <<< 1) % 256) ||| carry }
    s.update_zero_and_negative_flags s.a
  else
    let address := (s.get_address m).1
    let value := s.read address
    let carry := s.status.carry.toNat
    let s := { s with status := { s.status with carry := value &&& 0x80 != 0 } }
    let result := ((value <<< 1) % 256) ||| carry
    let s := s.write address result
    s.update_zero_and_negative_flags result

/-- Source `CPU::ROR`. -/
def CPU.ROR (s : CPU) (m : AddressingMode) : CPU :=
  if m = AddressingMode.Accumulator then
    let carry := s.status.carry.toNat
    let s := { s with status := { s.status with carry := s.a &&& 0x01 != 0 },
                      a := (s.a >>> 1) ||| (carry <<< 7) }
    s.update_zero_and_negative_flags s.a
  else
    let address := (s.get_address m).1
    let value := s.read address
    let carry := s.status.carry.toNat
    let s := { s with status := { s.status with carry := value &&& 0x01 != 0 } }
    let result := (value >>> 1) ||| (carry <<< 7)
    let s := s.write address result
    s.update_zero_and_negative_flags result

/-- Source `CPU::JMP`. -/
def CPU.JMP (s : CPU) (m : AddressingMode) : CPU :=
  { s with program_counter := (s.get_address m).1 }

/-- Source `CPU::JSR`: advance PC by one, push PC high then low, jump. -/
def CPU.JSR (s : CPU) (m : AddressingMode) : CPU :=
  let address := (s.get_address m).1
  let s := { s with program_counter := (s.program_counter + 1) % 65536 }
  let s := s.stack_push ((s.program_counter >>> 8) % 256)
  let s := s.stack_push (s.program_counter &&& 0xFF)
  { s with program_counter := address }

/-- Source `CPU::RTI`. -/
def CPU.RTI (s : CPU) (_m : AddressingMode) : CPU :=
  let sv := s.stack_pop
  let s := { sv.1 with status :=
    { Status.from_byte sv.2 with break_command := false, unused := true } }
  let sl := s.stack_pop
  let sh := sl.1.stack_pop
  { sh.1 with program_counter := hilo_to_u16 sh.2 sl.2 }

/-- Source `CPU::RTS`. -/
def CPU.RTS (s : CPU) (_m : AddressingMode) : CPU :=
  let sl := s.stack_pop
  let sh := sl.1.stack_pop
  { sh.1 with program_counter := (hilo_to_u16 sh.2 sl.2 + 1) % 65536 }

/-- Source `CPU::BIT`. -/
def CPU.BIT (s : CPU) (m : AddressingMode) : CPU :=
  let address := (s.get_address m).1
  let value := s.read address
  { s with status := { s.status with
    zero := s.a &&& value == 0,
    overflow := value &&& 0x40 != 0,
    negative := value &&& 0x80 != 0 } }

/-- Source `CPU::CMP`. -/
def CPU.CMP (s : CPU) (m : AddressingMode) : CPU :=
  let vp := s.get_data m
  let s := { s with status := { s.status with carry := decide (s.a ≥ vp.1) } }
  let s := s.indexed_cycles m vp.2
  s.update_zero_and_negative_flags ((s.a + 256 - vp.1 % 256) % 256)

/-- Source `CPU::CPX`. -/
def CPU.CPX (s : CPU) (m : AddressingMode) : CPU :=
  let value := (s.get_data m).1
  let s := { s with status := { s.status with carry := decide (s.x ≥ value) } }
  s.update_zero_and_negative_flags ((s.x + 256 - value % 256) % 256)

/-- Source `CPU::CPY`. -/
def CPU.CPY (s : CPU) (m : AddressingMode) : CPU :=
  let value := (s.get_data m).1
  let s := { s with status := { s.status with carry := decide (s.y ≥ value) } }
  s.update_zero_and_negative_flags ((s.y + 256 - value % 256) % 256)

/-- Source `CPU::BCC`. -/
def CPU.BCC (s : CPU) (_m : AddressingMode) : CPU := s.branch (!s.status.carry)

/-- Source `CPU::BCS`. -/
def CPU.BCS (s : CPU) (_m : AddressingMode) : CPU := s.branch s.status.carry

/-- Source `CPU::BEQ`. -/
def CPU.BEQ (s : CPU) (_m : AddressingMode) : CPU := s.branch s.status.zero

/-- Source `CPU::BMI`. -/
def CPU.BMI (s : CPU) (_m : AddressingMode) : CPU := s.branch s.status.negative

/-- Source `CPU::BNE`. -/
def CPU.BNE (s : CPU) (_m : AddressingMode) : CPU := s.branch (!s.status.zero)

/-- Source `CPU::BPL`. -/
def CPU.BPL (s : CPU) (_m : AddressingMode) : CPU := s.branch (!s.status.negative)

/-- Source `CPU::BVC`. -/
def CPU.BVC (s : CPU) (_m : AddressingMode) : CPU := s.branch (!s.status.overflow)

/-- Source `CPU::BVS`. -/
def CPU.BVS (s : CPU) (_m : AddressingMode) : CPU := s.branch s.status.overflow

/-- Source `CPU::BRK`: skip the padding byte, push PC and the status byte with
Break set, clear in-register Break, load PC from 0xFFFE/0xFFFF, halt. -/
def CPU.BRK (s : CPU) (_m : AddressingMode) : CPU :=
  let s := { s with program_counter := (s.program_counter + 1) % 65536 }
  let s := s.stack_push ((s.program_counter >>> 8) % 256)
  let s := s.stack_push (s.program_counter % 256)
  let s := { s with status := { s.status with break_command := true } }
  let s := s.stack_push s.status.to_byte
  let s := { s with status := { s.status with break_command := false } }
  let low := s.read 0xFFFE
  let high := s.read 0xFFFF
  { s with program_counter := hilo_to_u16 high low, complete := true }

/-- Source `CPU::CLC`. -/
def CPU.CLC (s : CPU) (_m : AddressingMode) : CPU :=
  { s with status := { s.status with carry := false } }

/-- Source `CPU::CLD`. -/
def CPU.CLD (s : CPU) (_m : AddressingMode) : CPU :=
  { s with status := { s.status with decimal := false } }

/-- Source `CPU::CLI`. -/
def CPU.CLI (s : CPU) (_m : AddressingMode) : CPU :=
  { s with status := { s.status with interrupt := false } }

/-- Source `CPU::CLV`. -/
def CPU.CLV (s : CPU) (_m : AddressingMode) : CPU :=
  { s with status := { s.status with overflow := false } }

/-- Source `CPU::NOP`. -/
def CPU.NOP (s : CPU) (_m : AddressingMode) : CPU := s

/-- Source `CPU::SEC`. -/
def CPU.SEC (s : CPU) (_m : AddressingMode) : CPU :=
  { s with status := { s.status with carry := true } }

/-- Source `CPU::SED`. -/
def CPU.SED (s : CPU) (_m : AddressingMode) : CPU :=
  { s with status := { s.status with decimal := true } }

/-- Source `CPU::SEI`. -/
def CPU.SEI (s : CPU) (_m : AddressingMode) : CPU :=
  { s with status := { s.status with interrupt := true } }

/-- Mnemonics of the 56 official operations (the `name` strings of the
opcode table in src/constants.rs, as a closed enumeration). -/
inductive OpName where
  | ADC | AND | ASL | BCC | BCS | BEQ | BIT | BMI | BNE | BPL | BRK | BVC | BVS
  | CLC | CLD | CLI | CLV | CMP | CPX | CPY | DEC | DEX | DEY | EOR
  | INC | INX | INY | JMP | JSR | LDA | LDX | LDY | LSR | NOP | ORA
  | PHA | PHP | PLA | PLP | ROL | ROR | RTI | RTS | SBC | SEC | SED | SEI
  | STA | STX | STY | TAX | TAY | TSX | TXA | TXS | TYA
deriving DecidableEq

/-- An opcode-table entry (struct `OpCode` in src/constants.rs; the
function-pointer `operation` is replaced by the mnemonic, dispatched
through `execOp`). -/
structure OpCode where
  name : OpName
  addressing_mode : AddressingMode
  bytes : Nat
  cycles : Nat

/-- Dispatch a mnemonic to its semantic routine (the `operation` function
pointers stored in the opcode table). -/
def execOp (name : OpName) (s : CPU) (m : AddressingMode) : CPU :=
  match name with
  | .ADC => s.ADC m | .AND => s.AND m | .ASL => s.ASL m
  | .BCC => s.BCC m | .BCS => s.BCS m | .BEQ => s.BEQ m | .BIT => s.BIT m
  | .BMI => s.BMI m | .BNE => s.BNE m | .BPL => s.BPL m | .BRK => s.BRK m
  | .BVC => s.BVC m | .BVS => s.BVS m
  | .CLC => s.CLC m | .CLD => s.CLD m | .CLI => s.CLI m | .CLV => s.CLV m
  | .CMP => s.CMP m | .CPX => s.CPX m | .CPY => s.CPY m
  | .DEC => s.DEC m | .DEX => s.DEX m | .DEY => s.DEY m | .EOR => s.EOR m
  | .INC => s.INC m | .INX => s.INX m | .INY => s.INY m
  | .JMP => s.JMP m | .JSR => s.JSR m
  | .LDA => s.LDA m | .LDX => s.LDX m | .LDY => s.LDY m | .LSR => s.LSR m
  | .NOP => s.NOP m | .ORA => s.ORA m
  | .PHA => s.PHA m | .PHP => s.PHP m | .PLA => s.PLA m | .PLP => s.PLP m
  | .ROL => s.ROL m | .ROR => s.ROR m | .RTI => s.RTI m | .RTS => s.RTS m
  | .SBC => s.SBC m | .SEC => s.SEC m | .SED => s.SED m | .SEI => s.SEI m
  | .STA => s.STA m | .STX => s.STX m | .STY => s.STY m
  | .TAX => s.TAX m | .TAY => s.TAY m | .TSX => s.TSX m
  | .TXA => s.TXA m | .TXS => s.TXS m | .TYA => s.TYA m

/-- The static opcode table `OPCODES` of src/constants.rs: the 151
official entries, keyed by the opcode byte; every other byte is absent. -/
def OPCODES : Nat → Option OpCode
  | 0x69 => some ⟨.ADC, .Immediate, 2, 2⟩
  | 0x65 => some ⟨.ADC, .ZeroPage, 2, 3⟩
  | 0x75 => some ⟨.ADC, .ZeroPageX, 2, 4⟩
  | 0x6D => some ⟨.ADC, .Absolute, 3, 4⟩
  | 0x7D => some ⟨.ADC, .AbsoluteX, 3, 4⟩
  | 0x79 => some ⟨.ADC, .AbsoluteY, 3, 4⟩
  | 0x61 => some ⟨.ADC, .IndirectX, 2, 6⟩
  | 0x71 => some ⟨.ADC, .IndirectY, 2, 5⟩
  | 0x29 => some ⟨.AND, .Immediate, 2, 2⟩
  | 0x25 => some ⟨.AND, .ZeroPage, 2, 3⟩
  | 0x35 => some ⟨.AND, .ZeroPageX, 2, 4⟩
  | 0x2D => some ⟨.AND, .Absolute, 3, 4⟩
  | 0x3D => some ⟨.AND, .AbsoluteX, 3, 4⟩
  | 0x39 => some ⟨.AND, .AbsoluteY, 3, 4⟩
  | 0x21 => some ⟨.AND, .IndirectX, 2, 6⟩
  | 0x31 => some ⟨.AND, .IndirectY, 2, 5⟩
  | 0x0A => some ⟨.ASL, .Accumulator, 1, 2⟩
  | 0x06 => some ⟨.ASL, .ZeroPage, 2, 5⟩
  | 0x16 => some ⟨.ASL, .ZeroPageX, 2, 6⟩
  | 0x0E => some ⟨.ASL, .Absolute, 3, 6⟩
  | 0x1E => some ⟨.ASL, .AbsoluteX, 3, 7⟩
  | 0x90 => some ⟨.BCC, .Relative, 2, 2⟩
  | 0xB0 => some ⟨.BCS, .Relative, 2, 2⟩
  | 0xF0 => some ⟨.BEQ, .Relative, 2, 2⟩
  | 0x24 => some ⟨.BIT, .ZeroPage, 2, 3⟩
  | 0x2C => some ⟨.BIT, .Absolute, 3, 4⟩
  | 0x30 => some ⟨.BMI, .Relative, 2, 2⟩
  | 0xD0 => some ⟨.BNE, .Relative, 2, 2⟩
  | 0x10 => some ⟨.BPL, .Relative, 2, 2⟩
  | 0x00 => some ⟨.BRK, .Implicit, 1, 7⟩
  | 0x50 => some ⟨.BVC, .Relative, 2, 2⟩
  | 0x70 => some ⟨.BVS, .Relative, 2, 2⟩
  | 0x18 => some ⟨.CLC, .Implicit, 1, 2⟩
  | 0xD8 => some ⟨.CLD, .Implicit, 1, 2⟩
  | 0x58 => some ⟨.CLI, .Implicit, 1, 2⟩
  | 0xB8 => some ⟨.CLV, .Implicit, 1, 2⟩
  | 0xC9 => some ⟨.CMP, .Immediate, 2, 2⟩
  | 0xC5 => some ⟨.CMP, .ZeroPage, 2, 3⟩
  | 0xD5 => some ⟨.CMP, .ZeroPageX, 2, 4⟩
  | 0xCD => some ⟨.CMP, .Absolute, 3, 4⟩
  | 0xDD => some ⟨.CMP, .AbsoluteX, 3, 4⟩
  | 0xD9 => some ⟨.CMP, .AbsoluteY, 3, 4⟩
  | 0xC1 => some ⟨.CMP, .IndirectX, 2, 6⟩
  | 0xD1 => some ⟨.CMP, .IndirectY, 2, 5⟩
  | 0xE0 => some ⟨.CPX, .Immediate, 2, 2⟩
  | 0xE4 => some ⟨.CPX, .ZeroPage, 2, 3⟩
  | 0xEC => some ⟨.CPX, .Absolute, 3, 4⟩
  | 0xC0 => some ⟨.CPY, .Immediate, 2, 2⟩
  | 0xC4 => some ⟨.CPY, .ZeroPage, 2, 3⟩
  | 0xCC => some ⟨.CPY, .Absolute, 3, 4⟩
  | 0xC6 => some ⟨.DEC, .ZeroPage, 2, 5⟩
  | 0xD6 => some ⟨.DEC, .ZeroPageX, 2, 6⟩
  | 0xCE => some ⟨.DEC, .Absolute, 3, 6⟩
  | 0xDE => some ⟨.DEC, .AbsoluteX, 3, 7⟩
  | 0xCA => some ⟨.DEX, .Implicit, 1, 2⟩
  | 0x88 => some ⟨.DEY, .Implicit, 1, 2⟩
  | 0x49 => some ⟨.EOR, .Immediate, 2, 2⟩
  | 0x45 => some ⟨.EOR, .ZeroPage, 2, 3⟩
  | 0x55 => some ⟨.EOR, .ZeroPageX, 2, 4⟩
  | 0x4D => some ⟨.EOR, .Absolute, 3, 4⟩
  | 0x5D => some ⟨.EOR, .AbsoluteX, 3, 4⟩
  | 0x59 => some ⟨.EOR, .AbsoluteY, 3, 4⟩
  | 0x41 => some ⟨.EOR, .IndirectX, 2, 6⟩
  | 0x51 => some ⟨.EOR, .IndirectY, 2, 5⟩
  | 0xE6 => some ⟨.INC, .ZeroPage, 2, 5⟩
  | 0xF6 => some ⟨.INC, .ZeroPageX, 2, 6⟩
  | 0xEE => some ⟨.INC, .Absolute, 3, 6⟩
  | 0xFE => some ⟨.INC, .AbsoluteX, 3, 7⟩
  | 0xE8 => some ⟨.INX, .Implicit, 1, 2⟩
  | 0xC8 => some ⟨.INY, .Implicit, 1, 2⟩
  | 0x4C => some ⟨.JMP, .Absolute, 3, 3⟩
  | 0x6C => some ⟨.JMP, .Indirect, 3, 5⟩
  | 0x20 => some ⟨.JSR, .Absolute, 3, 6⟩
  | 0xA9 => some ⟨.LDA, .Immediate, 2, 2⟩
  | 0xA5 => some ⟨.LDA, .ZeroPage, 2, 3⟩
  | 0xB5 => some ⟨.LDA, .ZeroPageX, 2, 4⟩
  | 0xAD => some ⟨.LDA, .Absolute, 3, 4⟩
  | 0xBD => some ⟨.LDA, .AbsoluteX, 3, 4⟩
  | 0xB9 => some ⟨.LDA, .AbsoluteY, 3, 4⟩
  | 0xA1 => some ⟨.LDA, .IndirectX, 2, 6⟩
  | 0xB1 => some ⟨.LDA, .IndirectY, 2, 5⟩
  | 0xA2 => some ⟨.LDX, .Immediate, 2, 2⟩
  | 0xA6 => some ⟨.LDX, .ZeroPage, 2, 3⟩
  | 0xB6 => some ⟨.LDX, .ZeroPageY, 2, 4⟩
  | 0xAE => some ⟨.LDX, .Absolute, 3, 4⟩
  | 0xBE => some ⟨.LDX, .AbsoluteY, 3, 4⟩
  | 0xA0 => some ⟨.LDY, .Immediate, 2, 2⟩
  | 0xA4 => some ⟨.LDY, .ZeroPage, 2, 3⟩
  | 0xB4 => some ⟨.LDY, .ZeroPageX, 2, 4⟩
  | 0xAC => some ⟨.LDY, .Absolute, 3, 4⟩
  | 0xBC => some ⟨.LDY, .AbsoluteX, 3, 4⟩
  | 0x4A => some ⟨.LSR, .Accumulator, 1, 2⟩
  | 0x46 => some ⟨.LSR, .ZeroPage, 2, 5⟩
  | 0x56 => some ⟨.LSR, .ZeroPageX, 2, 6⟩
  | 0x4E => some ⟨.LSR, .Absolute, 3, 6⟩
  | 0x5E => some ⟨.LSR, .AbsoluteX, 3, 7⟩
  | 0xEA => some ⟨.NOP, .Implicit, 1, 2⟩
  | 0x09 => some ⟨.ORA, .Immediate, 2, 2⟩
  | 0x05 => some ⟨.ORA, .ZeroPage, 2, 3⟩
  | 0x15 => some ⟨.ORA, .ZeroPageX, 2, 4⟩
  | 0x0D => some ⟨.ORA, .Absolute, 3, 4⟩
  | 0x1D => some ⟨.ORA, .AbsoluteX, 3, 4⟩
  | 0x19 => some ⟨.ORA, .AbsoluteY, 3, 4⟩
  | 0x01 => some ⟨.ORA, .IndirectX, 2, 6⟩
  | 0x11 => some ⟨.ORA, .IndirectY, 2, 5⟩
  | 0x48 => some ⟨.PHA, .Implicit, 1, 3⟩
  | 0x08 => some ⟨.PHP, .Implicit, 1, 3⟩
  | 0x68 => some ⟨.PLA, .Implicit, 1, 4⟩
  | 0x28 => some ⟨.PLP, .Implicit, 1, 4⟩
  | 0x2A => some ⟨.ROL, .Accumulator, 1, 2⟩
  | 0x26 => some ⟨.ROL, .ZeroPage, 2, 5⟩
  | 0x36 => some ⟨.ROL, .ZeroPageX, 2, 6⟩
  | 0x2E => some ⟨.ROL, .Absolute, 3, 6⟩
  | 0x3E => some ⟨.ROL, .AbsoluteX, 3, 7⟩
  | 0x6A => some ⟨.ROR, .Accumulator, 1, 2⟩
  | 0x66 => some ⟨.ROR, .ZeroPage, 2, 5⟩
  | 0x76 => some ⟨.ROR, .ZeroPageX, 2, 6⟩
  | 0x6E => some ⟨.ROR, .Absolute, 3, 6⟩
  | 0x7E => some ⟨.ROR, .AbsoluteX, 3, 7⟩
  | 0x40 => some ⟨.RTI, .Implicit, 1, 6⟩
  | 0x60 => some ⟨.RTS, .Implicit, 1, 6⟩
  | 0xE9 => some ⟨.SBC, .Immediate, 2, 2⟩
  | 0xE5 => some ⟨.SBC, .ZeroPage, 2, 3⟩
  | 0xF5 => some ⟨.SBC, .ZeroPageX, 2, 4⟩
  | 0xED => some ⟨.SBC, .Absolute, 3, 4⟩
  | 0xFD => some ⟨.SBC, .AbsoluteX, 3, 4⟩
  | 0xF9 => some ⟨.SBC, .AbsoluteY, 3, 4⟩
  | 0xE1 => some ⟨.SBC, .IndirectX, 2, 6⟩
  | 0xF1 => some ⟨.SBC, .IndirectY, 2, 5⟩
  | 0x38 => some ⟨.SEC, .Implicit, 1, 2⟩
  | 0xF8 => some ⟨.SED, .Implicit, 1, 2⟩
  | 0x78 => some ⟨.SEI, .Implicit, 1, 2⟩
  | 0x85 => some ⟨.STA, .ZeroPage, 2, 3⟩
  | 0x95 => some ⟨.STA, .ZeroPageX, 2, 4⟩
  | 0x8D => some ⟨.STA, .Absolute, 3, 4⟩
  | 0x9D => some ⟨.STA, .AbsoluteX, 3, 5⟩
  | 0x99 => some ⟨.STA, .AbsoluteY, 3, 5⟩
  | 0x81 => some ⟨.STA, .IndirectX, 2, 6⟩
  | 0x91 => some ⟨.STA, .IndirectY, 2, 6⟩
  | 0x86 => some ⟨.STX, .ZeroPage, 2, 3⟩
  | 0x96 => some ⟨.STX, .ZeroPageY, 2, 4⟩
  | 0x8E => some ⟨.STX, .Absolute, 3, 4⟩
  | 0x84 => some ⟨.STY, .ZeroPage, 2, 3⟩
  | 0x94 => some ⟨.STY, .ZeroPageX, 2, 4⟩
  | 0x8C => some ⟨.STY, .Absolute, 3, 4⟩
  | 0xAA => some ⟨.TAX, .Implicit, 1, 2⟩
  | 0xA8 => some ⟨.TAY, .Implicit, 1, 2⟩
  | 0xBA => some ⟨.TSX, .Implicit, 1, 2⟩
  | 0x8A => some ⟨.TXA, .Implicit, 1, 2⟩
  | 0x9A => some ⟨.TXS, .Implicit, 1, 2⟩
  | 0x98 => some ⟨.TYA, .Implicit, 1, 2⟩
  | _ => none

/-- Source `CPU::clock`: when no cycles are owed, fetch-decode-execute one
instruction (advancing PC past the opcode, charging the base cycles,
and fixing PC up past the operand bytes when the routine left it
untouched); always decrement the cycle counter at the end.  An unknown
opcode `panic!`s in the source, modelled as `none`. -/
def CPU.clock (s : CPU) : Option CPU :=
  if s.cycles = 0 then
    match OPCODES (s.read s.program_counter) with
    | some op =>
        let s1 := { s with program_counter := (s.program_counter + 1) % 65536,
                           cycles := op.cycles }
        let pg_state := s1.program_counter
        let s2 := execOp op.name s1 op.addressing_mode
        let s3 := if s2.program_counter = pg_state
                  then { s2 with program_counter :=
                           (s2.program_counter + (op.bytes - 1)) % 65536 }
                  else s2
        some { s3 with cycles := s3.cycles - 1 }
    | none => none
  else
    some { s with cycles := s.cycles - 1 }

/-- Source `CPU::reset`: reload PC from the reset vector at 0xFFFC/0xFFFD, zero
A/X/Y, restore SP to 0xFD, owe 8 cycles.  Status and memory untouched. -/
def CPU.reset (s : CPU) : CPU :=
  { s with program_counter := hilo_to_u16 (s.read 0xFFFD) (s.read 0xFFFC),
           a := 0, x := 0, y := 0, stack_pointer := 0xFD, cycles := 8 }

/-- Source `CPU::nmi`. -/
def CPU.nmi (s : CPU) : CPU :=
  let s := s.stack_push ((s.program_counter >>> 8) % 256)
  let s := s.stack_push (s.program_counter % 256)
  let s := { s with status := { s.status with
    break_command := false, unused := true, interrupt := true } }
  let s := s.stack_push s.status.to_byte
  { s with program_counter := hilo_to_u16 (s.read 0xFFFB) (s.read 0xFFFA),
           cycles := 8 }

/-- Source `CPU::irq`: gated on the Interrupt-disable flag; otherwise the NMI
sequence with the vector at 0xFFFE/0xFFFF and 7 cycles owed. -/
def CPU.irq (s : CPU) : CPU :=
  if !s.status.interrupt then
    let s := s.stack_push ((s.program_counter >>> 8) % 256)
    let s := s.stack_push (s.program_counter % 256)
    let s := { s with status := { s.status with
      break_command := false, unused := true, interrupt := true } }
    let s := s.stack_push s.status.to_byte
    { s with program_counter := hilo_to_u16 (s.read 0xFFFF) (s.read 0xFFFE),
             cycles := 7 }
  else s

/-- The CPU states reachable from `CPU::new` (over any initial bus
contents) by the public operations `clock`, `reset`, `nmi`, `irq`. -/
inductive Reachable : CPU → Prop where
  | init (m : Nat → Nat) : Reachable (CPU.new m)
  | clockStep {s s' : CPU} : Reachable s → CPU.clock s = some s' → Reachable s'
  | resetStep {s : CPU} : Reachable s → Reachable (CPU.reset s)
  | nmiStep {s : CPU} : Reachable s → Reachable (CPU.nmi s)
  | irqStep {s : CPU} : Reachable s → Reachable (CPU.irq s)

/-- Evaluating `hilo_to_u16` gives the arithmetic combination `256 * high + low` whenever
the low byte is in range. -/
theorem hilo_eq (hi lo : Nat) (hlo : lo < 256) : hilo_to_u16 hi lo = 256 * hi + lo := by
  have h : (2 : Nat) ^ 8 * hi + lo = 2 ^ 8 * hi ||| lo :=
    Nat.mul_add_lt_is_or (by omega) hi
  rw [hilo_to_u16, Nat.shiftLeft_eq, Nat.mul_comm hi, ← h]
  norm_num

/-- Masking with 0xFF00 isolates the high byte (shifted back up). -/
theorem and_ff00 (x : Nat) : x &&& 0xFF00 = x / 256 % 256 * 256 := by
  have h1 : (0xFF00 : Nat) = 2 ^ 8 * (2 ^ 8 - 1) := by norm_num
  have h2 : x / 256 % 256 * 256 = 2 ^ 8 * (x >>> 8 % 2 ^ 8) := by
    rw [Nat.shiftRight_eq_div_pow]
    norm_num
    ring
  apply Nat.eq_of_testBit_eq
  intro i
  rw [Nat.testBit_and, h1, h2, Nat.testBit_mul_pow_two, Nat.testBit_mul_pow_two,
      Nat.testBit_mod_two_pow, Nat.testBit_two_pow_sub_one, Nat.testBit_shiftRight]
  by_cases h : 8 ≤ i
  · have hh : 8 + (i - 8) = i := by omega
    rw [hh]
    cases hx : Nat.testBit x i <;> simp [h]
  · simp [h, show ¬ i ≥ 8 from h]

/-- The source test `CPU::page_cross` compares exactly the high bytes (mod 256) of its inputs. -/
theorem page_cross_eq (x y : Nat) :
    page_cross x y = decide (x / 256 % 256 ≠ y / 256 % 256) := by
  rw [page_cross, and_ff00, and_ff00]
  by_cases h : x / 256 % 256 = y / 256 % 256
  · simp [h]
  · have hne : x / 256 % 256 * 256 ≠ y / 256 % 256 * 256 := by omega
    simp [h, hne]

/-- Concrete probe for SBC: A = 0x05, Carry set, operand byte 0x00
(all memory zeroed, so `SBC #$00`). -/
def sbcProbe : CPU where
  mem := fun _ => 0
  status := ⟨true, false, false, false, false, true, false, false⟩
  a := 5
  x := 0
  y := 0
  stack_pointer := 0xFD
  program_counter := 0x0600
  complete := false
  cycles := 0

/-- Concrete probe for scenario S4: memory `D0 7F` at 0x0600, PC = 0x0600,
Zero clear, no cycles owed. -/
def branchProbe : CPU where
  mem := fun a => if a = 0x0600 then 0xD0 else if a = 0x0601 then 0x7F else 0
  status := ⟨false, false, true, false, false, true, false, false⟩
  a := 0
  x := 0
  y := 0
  stack_pointer := 0xFD
  program_counter := 0x0600
  complete := false
  cycles := 0

/-- Concrete probe whose whole memory holds 0x02, a byte with no opcode
descriptor. -/
def unknownProbe : CPU where
  mem := fun _ => 0x02
  status := ⟨false, false, true, false, false, true, false, false⟩
  a := 0
  x := 0
  y := 0
  stack_pointer := 0xFD
  program_counter := 0x0600
  complete := false
  cycles := 0

/-- Concrete probe for IndirectX with a wrapping pointer: operand byte 0xFF
at PC = 0x0200, X = 0, mem[0x0000] = 0xAB, mem[0x0100] = 0xCD. -/
def indXProbe : CPU where
  mem := fun a => if a = 0x0200 then 0xFF else if a = 0x0100 then 0xCD
                  else if a = 0x0000 then 0xAB else 0
  status := ⟨false, false, true, false, false, true, false, false⟩
  a := 0
  x := 0
  y := 0
  stack_pointer := 0xFD
  program_counter := 0x0200
  complete := false
  cycles := 0

/-- Core equivalence for the indexed page-cross flag: the source's comparison
of the wrapped indexed address against `base_high <<< 8` agrees both with the
canonical mask test on the full base and with comparing high bytes. -/
theorem flag_core (hi lo idx : Nat) (hhi : hi < 256) (hlo : lo < 256) :
    page_cross ((hilo_to_u16 hi lo + idx) % 65536) (hi <<< 8)
      = decide ((hilo_to_u16 hi lo &&& 0xFF00) ≠ ((hilo_to_u16 hi lo + idx) % 65536 &&& 0xFF00)) ∧
    page_cross ((hilo_to_u16 hi lo + idx) % 65536) (hi <<< 8)
      = decide (((hilo_to_u16 hi lo + idx) % 65536) / 256 ≠ hilo_to_u16 hi lo / 256) := by
  have hb : hilo_to_u16 hi lo = 256 * hi + lo := hilo_eq _ _ hlo
  have hsh : hi <<< 8 = hi * 256 := by rw [Nat.shiftLeft_eq]
  rw [hb, hsh, page_cross_eq, and_ff00, and_ff00]
  constructor <;> rw [decide_eq_decide] <;> omega

/-- Concrete probe for ADC: A = 0x50, Carry clear, operand byte 0x50
(scenario S2's `ADC #$50`). -/
def adcProbe : CPU where
  mem := fun _ => 0x50
  status := ⟨false, false, true, false, false, true, false, false⟩
  a := 0x50
  x := 0
  y := 0
  stack_pointer := 0xFD
  program_counter := 0x0600
  complete := false
  cycles := 0

/-- Concrete probe for the indexed page-cross flag (operand bytes 0x34). -/
def pageProbe : CPU where
  mem := fun _ => 0x34
  status := ⟨false, false, true, false, false, true, false, false⟩
  a := 0
  x := 0xF0
  y := 0xF0
  stack_pointer := 0xFD
  program_counter := 0x0600
  complete := false
  cycles := 0

theorem update_znf_unused (s : CPU) (r : Nat) :
    (s.update_zero_and_negative_flags r).status.unused = s.status.unused := rfl

theorem cycle_if_status (s : CPU) (m n : AddressingMode) (c : Bool) :
    (s.cycle_if m n c).status = s.status := by
  rw [CPU.cycle_if]; split <;> rfl

theorem indexed_cycles_status (s : CPU) (m : AddressingMode) (b : Bool) :
    (s.indexed_cycles m b).status = s.status := by
  rw [CPU.indexed_cycles, cycle_if_status, cycle_if_status, cycle_if_status]

theorem stack_push_status (s : CPU) (d : Nat) : (s.stack_push d).status = s.status := rfl

theorem stack_pop_status (s : CPU) : s.stack_pop.1.status = s.status := rfl

theorem branch_status (s : CPU) (c : Bool) : (s.branch c).status = s.status := by
  rw [CPU.branch]; split <;> rfl

theorem write_status (s : CPU) (a d : Nat) : (s.write a d).status = s.status := rfl

/-- No semantic routine ever clears the in-register Unused flag: every
operation either leaves it alone or (PLP, RTI) forces it back to 1. -/
theorem execOp_unused (nm : OpName) (m : AddressingMode) (s : CPU)
    (h : s.status.unused = true) : (execOp nm s m).status.unused = true := by
  cases nm <;>
    simp only [execOp, CPU.LDA, CPU.LDX, CPU.LDY, CPU.STA, CPU.STX, CPU.STY,
      CPU.TAX, CPU.TAY, CPU.TSX, CPU.TXA, CPU.TXS, CPU.TYA,
      CPU.PHA, CPU.PHP, CPU.PLA, CPU.PLP, CPU.AND, CPU.EOR, CPU.ORA,
      CPU.ADC, CPU.DEC, CPU.DEX, CPU.DEY, CPU.INC, CPU.INX, CPU.INY, CPU.SBC,
      CPU.ASL, CPU.LSR, CPU.ROL, CPU.ROR, CPU.JMP, CPU.JSR, CPU.RTI, CPU.RTS,
      CPU.BIT, CPU.CMP, CPU.CPX, CPU.CPY,
      CPU.BCC, CPU.BCS, CPU.BEQ, CPU.BMI, CPU.BNE, CPU.BPL, CPU.BVC, CPU.BVS,
      CPU.BRK, CPU.CLC, CPU.CLD, CPU.CLI, CPU.CLV, CPU.NOP,
      CPU.SEC, CPU.SED, CPU.SEI,
      update_znf_unused, cycle_if_status, indexed_cycles_status,
      stack_push_status, stack_pop_status, branch_status, write_status] <;>
    first
      | exact h
      | rfl
      | (split <;>
          simp only [update_znf_unused, cycle_if_status, indexed_cycles_status,
            stack_push_status, stack_pop_status, branch_status, write_status] <;>
          exact h)

/-- The clock driver preserves the Unused flag: the driver only touches PC and the
cycle counter around the semantic routine. -/
theorem clock_unused {s s' : CPU} (hc : CPU.clock s = some s')
    (h : s.status.unused = true) : s'.status.unused = true := by
  rw [CPU.clock] at hc
  split at hc
  · split at hc
    · cases hc
      split <;> exact execOp_unused _ _ _ h
    · exact absurd hc (by simp)
  · cases hc
    exact h

/-- Packing a status whose Unused flag is set always produces a byte with
bit 5 set. -/
theorem unused_bit5 (st : Status) (h : st.unused = true) :
    Status.to_byte st &&& 0x20 ≠ 0 := by
  obtain ⟨c, z, i, d, b, u, v, n⟩ := st
  simp only at h
  subst h
  revert c z i d b v n
  decide

/-- Concrete probe for IRQ delivery: Interrupt-disable clear, SP = 0xFD,
PC = 0x0600, memory filled with 0x34. -/
def irqProbe : CPU where
  mem := fun _ => 0x34
  status := ⟨false, false, false, false, false, true, false, false⟩
  a := 1
  x := 2
  y := 3
  stack_pointer := 0xFD
  program_counter := 0x0600
  complete := false
  cycles := 0

/-- Concrete probe for the wrap of PC at 0xFFFF (memory full of 0xA9). -/
def wrapProbe : CPU where
  mem := fun _ => 0xA9
  status := ⟨false, false, true, false, false, true, false, false⟩
  a := 0
  x := 0
  y := 0
  stack_pointer := 0xFD
  program_counter := 0xFFFF
  complete := false
  cycles := 0

end Nes

open Nes

/-- C1: evaluating `CPU::SBC` at the failing input A = 0x05, M = 0x00, C = 1
(immediate mode): the result byte is the correct 0x05, but the code leaves
Carry clear although no borrow occurs (5 ≥ 0 + (1 - 1)), where the claim
requires Carry set exactly when no borrow occurs. -/
theorem sbc_carry_bug_eval :
    (Nes.CPU.SBC sbcProbe Nes.AddressingMode.Immediate).a = 5 ∧
    (Nes.CPU.SBC sbcProbe Nes.AddressingMode.Immediate).status.carry = false ∧
    decide ((5 : Nat) ≥ 0 + (1 - 1)) = true :=
  ⟨rfl, rfl, rfl⟩

/-- C2 (counterexample): in scenario S4 (`D0 7F` at PC = 0x0600, Zero clear),
the fetch-execute call does NOT leave 4 owed cycles (which a total billed
cost of 5 would require): the branch target 0x0681 is on the same page as
0x0601, so no page-cross penalty is charged. -/
theorem s4_not_five_cycles :
    (Nes.CPU.clock branchProbe).map (fun t => (t.program_counter, t.cycles)) ≠
      some (0x0681, 4) := by
  decide

/-- C2 (amended): scenario S4 leaves PC = 0x0681 and bills a total of
3 cycles — 2 base + 1 taken, no page cross — observable as 2 cycles still
owed right after the fetch-execute call. -/
theorem s4_execution :
    (Nes.CPU.clock branchProbe).map (fun t => (t.program_counter, t.cycles)) =
      some (0x0681, 2) := by
  decide

/-- C3 (counterexample): fetch-decode-execute is not a total function of the
CPU state: on a state whose fetched byte 0x02 has no opcode descriptor, the
source `panic!`s (modelled as `none`). -/
theorem clock_unknown_opcode_aborts : Nes.CPU.clock unknownProbe = none := rfl

/-- C3 (amended): the fetch-decode-execute step succeeds exactly when the
fetched byte has an opcode descriptor; and PC arithmetic in the clock loop
wraps modulo 65536 — fetching the two-byte `LDA #imm` (0xA9) at
PC = 0xFFFF wraps PC past the opcode to 0x0000, reads the operand there,
and the fix-up past the operand byte leaves PC = 0x0001. -/
theorem clock_wraps_and_total_on_known_opcodes (s : Nes.CPU) (h0 : s.cycles = 0) :
    ((Nes.CPU.clock s).isSome ↔ (Nes.OPCODES (s.read s.program_counter)).isSome) ∧
    (s.program_counter = 0xFFFF → s.mem 0xFFFF = 0xA9 →
      (Nes.CPU.clock s).map (fun t => (t.program_counter, t.a)) = some (1, s.mem 0)) := by
  constructor
  · rw [Nes.CPU.clock, if_pos h0]
    cases hop : Nes.OPCODES (s.read s.program_counter) <;> simp [hop]
  · intro hpc hm
    have hread : s.read s.program_counter = 0xA9 := by rw [Nes.CPU.read, hpc, hm]
    have hop : Nes.OPCODES 0xA9 =
        some ⟨Nes.OpName.LDA, Nes.AddressingMode.Immediate, 2, 2⟩ := rfl
    rw [Nes.CPU.clock, if_pos h0, hread, hop]
    simp [Nes.execOp, Nes.CPU.LDA, Nes.CPU.get_data, Nes.CPU.get_address,
      Nes.CPU.read, Nes.CPU.indexed_cycles, Nes.CPU.cycle_if,
      Nes.CPU.update_zero_and_negative_flags, hpc]

/-- C3 (witness): the totality criterion and the 0xFFFF wrap, instantiated at
a concrete state whose memory is filled with the LDA-immediate opcode. -/
theorem clock_wraps_witness :
    ((Nes.CPU.clock wrapProbe).isSome ↔
      (Nes.OPCODES (wrapProbe.read wrapProbe.program_counter)).isSome) ∧
    (Nes.CPU.clock wrapProbe).map (fun t => (t.program_counter, t.a)) =
      some (1, wrapProbe.mem 0) :=
  ⟨(clock_wraps_and_total_on_known_opcodes wrapProbe rfl).1,
   (clock_wraps_and_total_on_known_opcodes wrapProbe rfl).2 rfl rfl⟩

/-- C4: ADC postcondition — for every in-range accumulator, operand byte and
carry flag, immediate-mode ADC stores the low 8 bits of `A + M + C`, sets
Carry to `sum > 255`, Overflow to `(M ^ result) & (result ^ A) & 0x80 ≠ 0`,
Z and N from the stored result, and never consults Decimal (the postcondition
holds for every value of the Decimal flag, which is left unchanged). -/
theorem adc_postcondition (s : Nes.CPU) (ha : s.a < 256)
    (hm : s.mem s.program_counter < 256) :
    (Nes.CPU.ADC s Nes.AddressingMode.Immediate).a =
      (s.a + s.mem s.program_counter + s.status.carry.toNat) % 256 ∧
    (Nes.CPU.ADC s Nes.AddressingMode.Immediate).status.carry =
      decide (s.a + s.mem s.program_counter + s.status.carry.toNat > 255) ∧
    (Nes.CPU.ADC s Nes.AddressingMode.Immediate).status.overflow =
      ((s.mem s.program_counter ^^^ (Nes.CPU.ADC s Nes.AddressingMode.Immediate).a) &&&
        ((Nes.CPU.ADC s Nes.AddressingMode.Immediate).a ^^^ s.a) &&& 0x80 != 0) ∧
    (Nes.CPU.ADC s Nes.AddressingMode.Immediate).status.zero =
      ((Nes.CPU.ADC s Nes.AddressingMode.Immediate).a == 0) ∧
    (Nes.CPU.ADC s Nes.AddressingMode.Immediate).status.negative =
      ((Nes.CPU.ADC s Nes.AddressingMode.Immediate).a >>> 7 != 0) ∧
    (Nes.CPU.ADC s Nes.AddressingMode.Immediate).status.decimal = s.status.decimal := by
  have hc : s.status.carry.toNat ≤ 1 := Bool.toNat_le s.status.carry
  have h16 : s.a + s.mem s.program_counter + s.status.carry.toNat < 65536 := by omega
  simp [Nes.CPU.ADC, Nes.CPU.get_data, Nes.CPU.get_address, Nes.CPU.read,
    Nes.CPU.indexed_cycles, Nes.CPU.cycle_if, Nes.CPU.update_zero_and_negative_flags,
    Nat.mod_eq_of_lt h16]

/-- C4 (witness): the ADC postcondition at the concrete input A = 0x50,
M = 0x50, C = 0 of scenario S2. -/
theorem adc_postcondition_witness :
    (Nes.CPU.ADC adcProbe Nes.AddressingMode.Immediate).a =
      (adcProbe.a + adcProbe.mem adcProbe.program_counter + adcProbe.status.carry.toNat) % 256 ∧
    (Nes.CPU.ADC adcProbe Nes.AddressingMode.Immediate).status.carry =
      decide (adcProbe.a + adcProbe.mem adcProbe.program_counter + adcProbe.status.carry.toNat > 255) ∧
    (Nes.CPU.ADC adcProbe Nes.AddressingMode.Immediate).status.overflow =
      ((adcProbe.mem adcProbe.program_counter ^^^ (Nes.CPU.ADC adcProbe Nes.AddressingMode.Immediate).a) &&&
        ((Nes.CPU.ADC adcProbe Nes.AddressingMode.Immediate).a ^^^ adcProbe.a) &&& 0x80 != 0) ∧
    (Nes.CPU.ADC adcProbe Nes.AddressingMode.Immediate).status.zero =
      ((Nes.CPU.ADC adcProbe Nes.AddressingMode.Immediate).a == 0) ∧
    (Nes.CPU.ADC adcProbe Nes.AddressingMode.Immediate).status.negative =
      ((Nes.CPU.ADC adcProbe Nes.AddressingMode.Immediate).a >>> 7 != 0) ∧
    (Nes.CPU.ADC adcProbe Nes.AddressingMode.Immediate).status.decimal = adcProbe.status.decimal :=
  adc_postcondition adcProbe (by decide) (by decide)

/-- C5: for AbsoluteX, AbsoluteY and IndirectY the crossed-page flag returned
by `get_address` equals both the canonical mask test
`(base & 0xFF00) ≠ ((base + index) & 0xFF00)` (with the u16-wrapped indexed
sum) and the comparison of the high byte of the effective address with the
high byte of the un-indexed base, for every memory contents and index. -/
theorem indexed_page_cross_canonical (s : Nes.CPU) (hmem : ∀ a, s.mem a < 256) :
    (let base := Nes.hilo_to_u16 (s.mem ((s.program_counter + 1) % 65536)) (s.mem s.program_counter)
     (Nes.CPU.get_address s Nes.AddressingMode.AbsoluteX).2
        = decide ((base &&& 0xFF00) ≠ ((base + s.x) % 65536 &&& 0xFF00)) ∧
     (Nes.CPU.get_address s Nes.AddressingMode.AbsoluteX).2
        = decide (((base + s.x) % 65536) / 256 ≠ base / 256)) ∧
    (let base := Nes.hilo_to_u16 (s.mem ((s.program_counter + 1) % 65536)) (s.mem s.program_counter)
     (Nes.CPU.get_address s Nes.AddressingMode.AbsoluteY).2
        = decide ((base &&& 0xFF00) ≠ ((base + s.y) % 65536 &&& 0xFF00)) ∧
     (Nes.CPU.get_address s Nes.AddressingMode.AbsoluteY).2
        = decide (((base + s.y) % 65536) / 256 ≠ base / 256)) ∧
    (let base := Nes.hilo_to_u16 (s.mem ((s.mem s.program_counter + 1) % 65536)) (s.mem (s.mem s.program_counter))
     (Nes.CPU.get_address s Nes.AddressingMode.IndirectY).2
        = decide ((base &&& 0xFF00) ≠ ((base + s.y) % 65536 &&& 0xFF00)) ∧
     (Nes.CPU.get_address s Nes.AddressingMode.IndirectY).2
        = decide (((base + s.y) % 65536) / 256 ≠ base / 256)) := by
  refine ⟨⟨?_, ?_⟩, ⟨?_, ?_⟩, ⟨?_, ?_⟩⟩ <;>
    simp only [Nes.CPU.get_address, Nes.CPU.read]
  · exact (flag_core _ _ s.x (hmem _) (hmem _)).1
  · exact (flag_core _ _ s.x (hmem _) (hmem _)).2
  · exact (flag_core _ _ s.y (hmem _) (hmem _)).1
  · exact (flag_core _ _ s.y (hmem _) (hmem _)).2
  · exact (flag_core _ _ s.y (hmem _) (hmem _)).1
  · exact (flag_core _ _ s.y (hmem _) (hmem _)).2

/-- C5 (witness): the page-cross flag equivalences at a concrete state with
operand bytes 0x34 and X = Y = 0xF0 (base 0x3434, indexed 0x3524: a cross). -/
theorem indexed_page_cross_witness :
    (let base := Nes.hilo_to_u16 (pageProbe.mem ((pageProbe.program_counter + 1) % 65536)) (pageProbe.mem pageProbe.program_counter)
     (Nes.CPU.get_address pageProbe Nes.AddressingMode.AbsoluteX).2
        = decide ((base &&& 0xFF00) ≠ ((base + pageProbe.x) % 65536 &&& 0xFF00)) ∧
     (Nes.CPU.get_address pageProbe Nes.AddressingMode.AbsoluteX).2
        = decide (((base + pageProbe.x) % 65536) / 256 ≠ base / 256)) ∧
    (let base := Nes.hilo_to_u16 (pageProbe.mem ((pageProbe.program_counter + 1) % 65536)) (pageProbe.mem pageProbe.program_counter)
     (Nes.CPU.get_address pageProbe Nes.AddressingMode.AbsoluteY).2
        = decide ((base &&& 0xFF00) ≠ ((base + pageProbe.y) % 65536 &&& 0xFF00)) ∧
     (Nes.CPU.get_address pageProbe Nes.AddressingMode.AbsoluteY).2
        = decide (((base + pageProbe.y) % 65536) / 256 ≠ base / 256)) ∧
    (let base := Nes.hilo_to_u16 (pageProbe.mem ((pageProbe.mem pageProbe.program_counter + 1) % 65536)) (pageProbe.mem (pageProbe.mem pageProbe.program_counter))
     (Nes.CPU.get_address pageProbe Nes.AddressingMode.IndirectY).2
        = decide ((base &&& 0xFF00) ≠ ((base + pageProbe.y) % 65536 &&& 0xFF00)) ∧
     (Nes.CPU.get_address pageProbe Nes.AddressingMode.IndirectY).2
        = decide (((base + pageProbe.y) % 65536) / 256 ≠ base / 256)) :=
  indexed_page_cross_canonical pageProbe (fun _ => by simp [pageProbe])

/-- C10: reset idempotence — for every CPU state and memory contents, two
consecutive `reset()` calls leave the CPU (registers, flags, cycle counter,
halted latch) and the memory exactly as one call does. -/
theorem reset_idempotent (s : Nes.CPU) :
    Nes.CPU.reset (Nes.CPU.reset s) = Nes.CPU.reset s := rfl

/-- C8 (counterexample): with operand byte 0xFF and X = 0 (so ptr = 0xFF),
IndirectX resolution reads its high address byte from address 0x0000 — the
u8 increment `ptr + 1` wraps before the cast to u16 — and not from 0x0100 as
the claim states. -/
theorem indirect_x_high_byte_wraps :
    (Nes.CPU.get_address indXProbe Nes.AddressingMode.IndirectX).1 =
      Nes.hilo_to_u16 (indXProbe.mem 0x0000) (indXProbe.mem 0x00FF) ∧
    (Nes.CPU.get_address indXProbe Nes.AddressingMode.IndirectX).1 ≠
      Nes.hilo_to_u16 (indXProbe.mem 0x0100) (indXProbe.mem 0x00FF) := by
  refine ⟨rfl, ?_⟩
  decide

/-- C8 (amended): IndirectX resolution is total — it always yields an
address without failing — but it reads the pointer's high byte from
`(ptr + 1) mod 256`, a zero-page address: the u8 increment wraps before the
cast to u16 (release semantics; a debug build would abort on the overflow),
so for ptr = 0xFF the high byte comes from 0x0000, not 0x0100. -/
theorem indirect_x_resolution (s : Nes.CPU) :
    Nes.CPU.get_address s Nes.AddressingMode.IndirectX =
      (Nes.hilo_to_u16 (s.mem (((s.mem s.program_counter + s.x) % 256 + 1) % 256))
                       (s.mem ((s.mem s.program_counter + s.x) % 256)), false) ∧
    ((s.mem s.program_counter + s.x) % 256 = 0xFF →
      Nes.CPU.get_address s Nes.AddressingMode.IndirectX =
        (Nes.hilo_to_u16 (s.mem 0x0000) (s.mem 0x00FF), false)) := by
  constructor
  · rfl
  · intro h
    simp [Nes.CPU.get_address, Nes.CPU.read, h]

/-- C8 (witness): the amended IndirectX behaviour at the concrete probe
with ptr = 0xFF: the resolved address takes its high byte from 0x0000. -/
theorem indirect_x_resolution_witness :
    Nes.CPU.get_address indXProbe Nes.AddressingMode.IndirectX =
      (Nes.hilo_to_u16 (indXProbe.mem 0x0000) (indXProbe.mem 0x00FF), false) :=
  (indirect_x_resolution indXProbe).2 (by decide)

/-- C7: IRQ gating and atomicity — with the Interrupt flag set `irq` is the
identity on the whole state (registers, flags, cycle counter, halt latch and
memory); with it clear, `irq` pushes PC high, PC low, then the status byte
formed after clearing Break and setting Unused and Interrupt, leaves the
other registers and all memory outside the stack page untouched, loads PC
from the little-endian vector at 0xFFFE/0xFFFF, and owes 7 cycles. -/
theorem irq_gating (s : Nes.CPU) (hsp : s.stack_pointer < 256)
    (hpc : s.program_counter < 65536) (hmem : ∀ a, s.mem a < 256) :
    (s.status.interrupt = true → Nes.CPU.irq s = s) ∧
    (s.status.interrupt = false →
      (Nes.CPU.irq s).mem (0x0100 + s.stack_pointer) = s.program_counter / 256 ∧
      (Nes.CPU.irq s).mem (0x0100 + (s.stack_pointer + 255) % 256) = s.program_counter % 256 ∧
      (Nes.CPU.irq s).mem (0x0100 + (s.stack_pointer + 254) % 256) =
        Nes.Status.to_byte { s.status with break_command := false, unused := true, interrupt := true } ∧
      (Nes.CPU.irq s).status =
        { s.status with break_command := false, unused := true, interrupt := true } ∧
      (Nes.CPU.irq s).program_counter = 256 * s.mem 0xFFFF + s.mem 0xFFFE ∧
      (Nes.CPU.irq s).cycles = 7 ∧
      (Nes.CPU.irq s).stack_pointer = (s.stack_pointer + 253) % 256 ∧
      (Nes.CPU.irq s).a = s.a ∧ (Nes.CPU.irq s).x = s.x ∧ (Nes.CPU.irq s).y = s.y ∧
      (Nes.CPU.irq s).complete = s.complete ∧
      (∀ addr, addr < 0x0100 ∨ 0x0200 ≤ addr → (Nes.CPU.irq s).mem addr = s.mem addr)) := by
  constructor
  · intro h
    rw [Nes.CPU.irq]
    simp [h]
  · intro h
    rw [Nes.CPU.irq]
    simp only [h, Bool.not_false, if_true]
    simp only [Nes.CPU.stack_push, Nes.CPU.read, Nes.writeMem]
    refine ⟨?_, ?_, ?_, trivial, ?_, trivial, ?_, trivial, trivial, trivial, trivial, ?_⟩
    · rw [if_neg (by omega), if_neg (by omega), if_pos trivial,
        Nat.shiftRight_eq_div_pow]
      have h8 : (2 : Nat) ^ 8 = 256 := by norm_num
      rw [h8]
      omega
    · rw [if_neg (by omega), if_pos trivial]
    · rw [if_pos (by omega)]
    · rw [if_neg (by omega), if_neg (by omega), if_neg (by omega),
        if_neg (by omega), if_neg (by omega), if_neg (by omega)]
      exact hilo_eq _ _ (hmem 65534)
    · omega
    · intro addr haddr
      rw [if_neg (by omega), if_neg (by omega), if_neg (by omega)]

/-- C7 (witness): the IRQ effect instantiated at the concrete probe with the
Interrupt flag clear (A=1, X=2, Y=3, SP = 0xFD, PC = 0x0600, memory 0x34). -/
theorem irq_gating_witness :
    (Nes.CPU.irq irqProbe).mem (0x0100 + irqProbe.stack_pointer) = irqProbe.program_counter / 256 ∧
    (Nes.CPU.irq irqProbe).mem (0x0100 + (irqProbe.stack_pointer + 255) % 256) = irqProbe.program_counter % 256 ∧
    (Nes.CPU.irq irqProbe).mem (0x0100 + (irqProbe.stack_pointer + 254) % 256) =
      Nes.Status.to_byte { irqProbe.status with break_command := false, unused := true, interrupt := true } ∧
    (Nes.CPU.irq irqProbe).status =
      { irqProbe.status with break_command := false, unused := true, interrupt := true } ∧
    (Nes.CPU.irq irqProbe).program_counter = 256 * irqProbe.mem 0xFFFF + irqProbe.mem 0xFFFE ∧
    (Nes.CPU.irq irqProbe).cycles = 7 ∧
    (Nes.CPU.irq irqProbe).stack_pointer = (irqProbe.stack_pointer + 253) % 256 ∧
    (Nes.CPU.irq irqProbe).a = irqProbe.a ∧ (Nes.CPU.irq irqProbe).x = irqProbe.x ∧
    (Nes.CPU.irq irqProbe).y = irqProbe.y ∧
    (Nes.CPU.irq irqProbe).complete = irqProbe.complete ∧
    (∀ addr, addr < 0x0100 ∨ 0x0200 ≤ addr →
      (Nes.CPU.irq irqProbe).mem addr = irqProbe.mem addr) :=
  (irq_gating irqProbe (by decide) (by decide) (fun _ => by simp [irqProbe])).2 rfl

/-- C9: Unused-flag invariant — in every CPU state reachable from `new`
(over any bus contents) by any sequence of `clock`, `reset`, `nmi`, `irq`,
the in-register Unused flag is true; consequently the status byte BRK pushes
(the register status with Break forced to 1, Unused not explicitly forced)
has bit 5 set, as do the bytes pushed by PHP (Unused forced), NMI and IRQ
(Unused set before the push). -/
theorem unused_flag_invariant (s : Nes.CPU) (hr : Nes.Reachable s) :
    s.status.unused = true ∧
    Nes.Status.to_byte { s.status with break_command := true } &&& 0x20 ≠ 0 := by
  have hu : s.status.unused = true := by
    induction hr with
    | init m => rfl
    | clockStep hr hc ih => exact clock_unused hc ih
    | resetStep hr ih => exact ih
    | nmiStep hr ih => rfl
    | irqStep hr ih =>
        rw [Nes.CPU.irq]
        split
        · rfl
        · exact ih
  exact ⟨hu, unused_bit5 _ hu⟩

/-- C9 (witness): the invariant at the freshly constructed CPU over a zeroed
bus, reachable in zero steps. -/
theorem unused_flag_invariant_witness :
    (Nes.CPU.new (fun _ => 0)).status.unused = true ∧
    Nes.Status.to_byte { (Nes.CPU.new (fun _ => 0)).status with break_command := true }
      &&& 0x20 ≠ 0 :=
  unused_flag_invariant (Nes.CPU.new (fun _ => 0)) (Nes.Reachable.init (fun _ => 0))

/-- C6: status-word round trip — for every status value `p` (all eight flags,
each independently true or false, Carry at bit 0 through Negative at bit 7),
`from_byte (to_byte p) = p`. -/
theorem status_round_trip (c z i d b u v n : Bool) :
    Nes.Status.from_byte (Nes.Status.to_byte ⟨c, z, i, d, b, u, v, n⟩) = ⟨c, z, i, d, b, u, v, n⟩ := by
  cases c <;> cases z <;> cases i <;> cases d <;>
    cases b <;> cases u <;> cases v <;> cases n <;> decide
